import Mathlib

/-
Verification development for the ggplot plot-build pipeline
(src/ggplot/ggplot.py).  The `ggplot` class owns layers, scales, facet,
theme and guides, and its `plot_build` method runs the staged build
pipeline; `draw` walks panels and layers; `draw_legend` overlays the
legend; `__init__` accepts (mapping, data) in either order.

Shallow embedding conventions:
  * pandas DataFrames become `Dataset` (a list of rows, each row an
    association list from column name to an integer-coded value);
  * python object identity is modelled by a `Heap` of mutable scale
    objects addressed by natural-number references, plus reference ids
    on every attribute of the plot object, so that `deepcopy` sharing
    (`shallow = set(["data", "plot_env"])`) and in-build mutation can be
    stated;
  * exceptions become `Except GgError`; the dict lookup in `draw_legend`
    raises `keyError`, `GgplotError(...)` becomes `ggplotError msg`;
  * collaborator modules that are not part of src (panel.py, scales/,
    facets/, layer.py, guides/, utils/) are modelled from the spec and
    carry a doc comment saying so; polymorphic geom/stat/position hooks
    are function fields of `Layer`.
Each build also returns the list of pipeline `Event`s in execution order
and the list of heap references it wrote, so that stage-ordering and
non-mutation claims can be stated.
-/

namespace GG

/-- Modelled from the spec: the "waive" sentinel (utils.is_waive, not in
src) is a tri-state-capable value distinct from empty and explicit. -/
inductive WaiveOr (α : Type) where
  | waive : WaiveOr α
  | given (val : α) : WaiveOr α
deriving DecidableEq

/-- Modelled from the spec: utils.is_waive tests the sentinel. -/
def is_waive {α : Type} : WaiveOr α → Bool
  | WaiveOr.waive => true
  | WaiveOr.given _ => false

/-- Domain transform of a scale (identity, log-like shifts etc. as a
closed set of tagged variants, per the design notes). -/
inductive Trans where
  | identity : Trans
  | shift (k : Int) : Trans
  | scaleBy (k : Int) : Trans
deriving DecidableEq

def Trans.apply : Trans → Int → Int
  | Trans.identity, v => v
  | Trans.shift k, v => v + k
  | Trans.scaleBy k, v => v * k

/-- Modelled from the spec: the mutable state of one scale object
(scales/scale.py is not in src): covered aesthetics, discreteness,
accumulated range, domain transform, and breaks/labels which may be the
waive sentinel. -/
structure ScaleSt where
  aes : List String
  discrete : Bool
  range : List Int
  trans : Trans
  breaks : WaiveOr (List Int)
  labels : WaiveOr (List String)
deriving DecidableEq

def defaultScale : ScaleSt :=
  ⟨[], false, [], Trans.identity, WaiveOr.waive, WaiveOr.waive⟩

/-- A data row: association list from column name to integer-coded value. -/
abbrev Row := List (String × Int)

abbrev Dataset := List Row

def rowLookup (r : Row) (c : String) : Option Int :=
  (r.find? (fun cv => cv.1 == c)).map (fun cv => cv.2)

/-- Store of mutable scale objects, first binding wins (writes shadow). -/
def storeGet : List (Nat × ScaleSt) → Nat → Option ScaleSt
  | [], _ => none
  | (a, s) :: t, r => if r = a then some s else storeGet t r

/-- Heap of python objects: `next` is the next fresh reference id, the
store holds the (mutable) scale objects of plots. -/
structure Heap where
  next : Nat
  store : List (Nat × ScaleSt)

def Heap.get (h : Heap) (r : Nat) : Option ScaleSt := storeGet h.store r

/-- Fresh consecutive reference ids starting at b. -/
def freshRefs : Nat → Nat → List Nat
  | _, 0 => []
  | b, Nat.succ k => b :: freshRefs (b + 1) k

def Heap.allocMany (h : Heap) (sts : List ScaleSt) : Heap × List Nat :=
  let rs := freshRefs h.next sts.length
  (⟨h.next + sts.length, rs.zip sts ++ h.store⟩, rs)

def Heap.writeMany (h : Heap) (ps : List (Nat × ScaleSt)) : Heap :=
  ⟨h.next, ps ++ h.store⟩

/-- Read the scale objects behind a list of references. -/
def readRefs (h : Heap) (rs : List Nat) : List ScaleSt :=
  rs.map (fun r => (h.get r).getD defaultScale)

abbrev Env := List (String × Int)

/-- Aesthetic mapping (components/aes.py interface): aesthetic name to
column reference, plus the captured evaluation environment aes_env. -/
structure Aes where
  mapping : List (String × String)
  aes_env : Env
deriving DecidableEq

/-- Modelled from the spec: components.aes.make_labels derives axis/legend
labels from the mapping (components/aes.py is not in src). -/
def make_labels (a : Aes) : List (String × String) := a.mapping

/-- Theme plug-in interface: only the named legend-position parameter is
needed by the core (theme._params["legend_position"]). -/
structure Theme where
  legend_position : String
deriving DecidableEq

/-- Guides container owned by the plot (guides/guides.py interface). -/
inductive Guides where
  | mk : Guides
deriving DecidableEq

/-- One row of the panel layout table: panel id, grid row/column and the
scale-x / scale-y indices, plus facet-variable values. -/
structure LayoutRow where
  PANEL : Nat
  ROW : Nat
  COL : Nat
  SCALE_X : Nat
  SCALE_Y : Nat
  facetVals : List (String × Int)
deriving DecidableEq

inductive FacetKind where
  | null : FacetKind
  | grid (rows cols : List String) : FacetKind
  | wrap (vars : List String) : FacetKind
deriving DecidableEq

/-- Modelled from the spec: a facet strategy (facets/ is not in src)
computes the layout table from all data and assigns each layer row to a
panel (adding the PANEL column), falling back to the plot data when a
layer has no own data. -/
structure Facet where
  kind : FacetKind
  nrow : Nat
  ncol : Nat
  train_layout : List (Option Dataset) → List LayoutRow
  assignPanels : List LayoutRow → Option Dataset → Dataset → Dataset

/-- Modelled from the spec: facet.map_layout produces one panel-tagged
dataset per layer, for each layer joining its rows to panels. -/
def facetMapLayout (fac : Facet) (layout : List LayoutRow)
    (layer_data : List (Option Dataset)) (plot_data : Dataset) : List Dataset :=
  layer_data.map (fun ld => fac.assignPanels layout ld plot_data)

/-- Per-panel display record {x/y range, breaks, labels}; breaks/labels
may be the waive sentinel. -/
structure RangeRec where
  x : Int × Int
  y : Int × Int
  x_breaks : WaiveOr (List Int)
  y_breaks : WaiveOr (List Int)
  x_labels : WaiveOr (List String)
  y_labels : WaiveOr (List String)
deriving DecidableEq

def defaultRange : RangeRec :=
  ⟨(0, 0), (0, 0), WaiveOr.waive, WaiveOr.waive, WaiveOr.waive, WaiveOr.waive⟩

/-- Drawing-surface axes state: limits, explicit ticks and tick labels
(`none` means the surface's automatic choice is untouched), minor-grid
flags and a count of attached (legend) artists. -/
structure Axes where
  xlim : Option (Int × Int)
  ylim : Option (Int × Int)
  xticks : Option (List Int)
  yticks : Option (List Int)
  xticklabels : Option (List String)
  yticklabels : Option (List String)
  minorGridX : Bool
  minorGridY : Bool
  artists : Nat
deriving DecidableEq

def defaultAxes : Axes := ⟨none, none, none, none, none, none, true, true, 0⟩

/-- Errors surfaced by the embedded code: GgplotError(msg) from
utils.exceptions, python KeyError from a dict lookup, AttributeError,
IndexError from sequence indexing. -/
inductive GgError where
  | ggplotError (msg : String) : GgError
  | keyError (key : String) : GgError
  | attributeError (attr : String) : GgError
  | indexError : GgError
deriving DecidableEq

/-- Pipeline and rendering stages, logged in execution order. -/
inductive Event where
  | checkLayers | deepcopyEv | trainLayout | mapLayout | computeAes
  | addGroupEv | transformScales | trainPosition1 | mapPosition1
  | calculateStats | mapStatisticEv | scalesAddMissingEv
  | reparameteriseEv | adjustPositionEv | resetScalesEv
  | trainPosition2 | mapPosition2 | trainNonPosition | mapNonPosition
  | trainRangesEv | closeAll | allocSurface | panelLoopEv
  | facetSpacingEv | modifyAxisEv | buildLegend
deriving DecidableEq, BEq

/-- A layer: optional own data plus the polymorphic per-stage hooks of
the geom/stat/position plug-in interface (layer.py is not in src; the
hook signatures follow the spec contract). -/
structure Layer where
  ldata : Option Dataset
  compute_aesthetics : Dataset → Aes → Env → Except GgError Dataset
  statCompute : Dataset → Dataset
  map_statistic : Dataset → Dataset
  reparameterise : Dataset → Dataset
  adjust_position : Dataset → Dataset
  plot : Dataset → ScaleSt → ScaleSt → Axes → Nat → Axes

/-- Placeholder layer used only as a getD default in statements. -/
def defaultLayer : Layer :=
  ⟨none, fun d _ _ => Except.ok d, fun d => d, fun d => d, fun d => d,
   fun d => d, fun _ _ _ ax _ => ax⟩

/-- The ggplot object (ggplot.__init__ attributes).  Every attribute
carries a reference id so that deepcopy sharing and mutation can be
stated; `data` and `plot_env` are the two attributes the source's
__deepcopy__ shares by reference. -/
structure GGPlot where
  dataRef : Nat
  data : Dataset
  plotEnvRef : Nat
  plotEnv : Env
  mappingRef : Nat
  mapping : Aes
  facetRef : Nat
  facet : Facet
  labelsRef : Nat
  labels : List (String × String)
  layersRef : Nat
  layers : List Layer
  guidesRef : Nat
  guides : Guides
  scalesRef : Nat
  scaleRefs : List Nat
  themeRef : Nat
  theme : Theme

/-- References owned exclusively by a plot (everything but the shared
data and plot_env). -/
def GGPlot.ownRefs (p : GGPlot) : List Nat :=
  p.mappingRef :: p.facetRef :: p.labelsRef :: p.layersRef ::
    p.guidesRef :: p.scalesRef :: p.themeRef :: p.scaleRefs

/-- All references reachable from a plot object. -/
def GGPlot.allRefs (p : GGPlot) : List Nat :=
  p.dataRef :: p.plotEnvRef :: p.ownRefs

/-- A heap/plot pair is well formed when all the plot's references were
allocated before the heap's fresh counter. -/
def Wf (h : Heap) (p : GGPlot) : Prop :=
  ∀ r ∈ p.allRefs, r < h.next

/- ------------------------------------------------------------------
Scales registry operations (scales/scales.py is not in src; modelled
from spec section 4.2).
------------------------------------------------------------------ -/

/-- Modelled from the spec: Scales.get_scales returns the scale object
resolved for an aesthetic, or none. -/
def get_scales (sts : List ScaleSt) (a : String) : Option ScaleSt :=
  sts.find? (fun s => s.aes.contains a)

/-- Modelled from the spec: Scales.transform_df applies each scale's
domain transform to its columns and returns the transformed dataset. -/
def transform_df (sts : List ScaleSt) (d : Dataset) : Dataset :=
  d.map (fun r => r.map (fun cv =>
    match get_scales sts cv.1 with
    | some s => (cv.1, s.trans.apply cv.2)
    | none => cv))

def isPositionScale (s : ScaleSt) : Bool :=
  s.aes.any (fun a => a == "x" || a == "y")

/-- Modelled from the spec: Scales.non_position_scales is the subset of
scales excluding the position aesthetics x and y. -/
def non_position_scales (sts : List ScaleSt) : List ScaleSt :=
  sts.filter (fun s => !(isPositionScale s))

/-- Accumulate observed values into a scale's range (training). -/
def ScaleSt.trainVals (s : ScaleSt) (vs : List Int) : ScaleSt :=
  { s with range := vs.foldl (fun acc v => if acc.contains v then acc else acc ++ [v]) s.range }

/-- Map a trained value to its final visual value: discrete scales map
levels to 1-based positions in the trained range, continuous scales keep
the value. -/
def ScaleSt.mapVal (s : ScaleSt) (v : Int) : Int :=
  if s.discrete then Int.ofNat (s.range.indexOf v) + 1 else v

def valsForScale (d : Dataset) (s : ScaleSt) : List Int :=
  (d.map (fun r => r.filterMap (fun cv =>
    if s.aes.contains cv.1 then some cv.2 else none))).flatten

/-- Modelled from the spec: Scales.train_df trains every non-position
scale on a dataset (range accumulation); positions are excluded at this
call site. -/
def trainNonPositionDf (sts : List ScaleSt) (d : Dataset) : List ScaleSt :=
  sts.map (fun s => if isPositionScale s then s else s.trainVals (valsForScale d s))

/-- Modelled from the spec: Scales.map_df converts trained values of the
given scales' aesthetics into final visual values. -/
def map_df (npsts : List ScaleSt) (d : Dataset) : Dataset :=
  d.map (fun r => r.map (fun cv =>
    match npsts.find? (fun s => s.aes.contains cv.1) with
    | some s => (cv.1, s.mapVal cv.2)
    | none => cv))

/-- Modelled from the spec: scales_add_missing backfills a default scale
for every listed aesthetic that has no resolved scale yet; returns the
new scale list and the scales that were added. -/
def scales_add_missing (sts : List ScaleSt) (aess : List String) :
    List ScaleSt × List ScaleSt :=
  let added := aess.filterMap (fun a =>
    if (sts.find? (fun s => s.aes.contains a)).isSome then none
    else some ⟨[a], false, [], Trans.identity, WaiveOr.waive, WaiveOr.waive⟩)
  (sts ++ added, added)

/- ------------------------------------------------------------------
Panel (panel.py is not in src; modelled from spec section 4.4).
------------------------------------------------------------------ -/

/-- Modelled from the spec: the Panel owns the layout table, per-index
position scales (cloned from the plot's x/y scales) and the finalized
per-panel display ranges. -/
structure Panel where
  layout : List LayoutRow
  x_scales : List ScaleSt
  y_scales : List ScaleSt
  ranges : List RangeRec
deriving DecidableEq

def updateAt (l : List ScaleSt) (i : Nat) (f : ScaleSt → ScaleSt) : List ScaleSt :=
  match l.get? i with
  | some s => l.set i (f s)
  | none => l

/-- Values of a column restricted to one panel's rows, across layers. -/
def panelVals (data : List Dataset) (pnl : LayoutRow) (col : String) : List Int :=
  ((data.map (fun d =>
    (d.filter (fun r => rowLookup r "PANEL" == some (Int.ofNat pnl.PANEL))).filterMap
      (fun r => rowLookup r col)))).flatten

/-- Modelled from the spec: Panel.train_position initializes the panel
position scales (one clone per distinct scale index) on first use and
folds each panel's x/y values into that panel's scale range. -/
def Panel.train_position (pn : Panel) (data : List Dataset)
    (sx sy : Option ScaleSt) : Panel :=
  let nX := pn.layout.foldl (fun m pnl => max m pnl.SCALE_X) 0
  let nY := pn.layout.foldl (fun m pnl => max m pnl.SCALE_Y) 0
  let xsc0 := if pn.x_scales.isEmpty then
      (match sx with
       | some s => List.replicate nX s
       | none => []) else pn.x_scales
  let ysc0 := if pn.y_scales.isEmpty then
      (match sy with
       | some s => List.replicate nY s
       | none => []) else pn.y_scales
  let xsc1 := pn.layout.foldl (fun acc pnl =>
    updateAt acc (pnl.SCALE_X - 1) (fun s => s.trainVals (panelVals data pnl "x"))) xsc0
  let ysc1 := pn.layout.foldl (fun acc pnl =>
    updateAt acc (pnl.SCALE_Y - 1) (fun s => s.trainVals (panelVals data pnl "y"))) ysc0
  { pn with x_scales := xsc1, y_scales := ysc1 }

/-- Modelled from the spec: Panel.map_position converts each row's x/y
values through its panel's position scales. -/
def Panel.map_position (pn : Panel) (data : List Dataset) : List Dataset :=
  data.map (fun d => d.map (fun r =>
    match rowLookup r "PANEL" with
    | some pv =>
      match pn.layout.find? (fun q => Int.ofNat q.PANEL == pv) with
      | some pnl =>
        let sx := pn.x_scales.getD (pnl.SCALE_X - 1) defaultScale
        let sy := pn.y_scales.getD (pnl.SCALE_Y - 1) defaultScale
        r.map (fun cv =>
          if cv.1 == "x" then (cv.1, sx.mapVal cv.2)
          else if cv.1 == "y" then (cv.1, sy.mapVal cv.2)
          else cv)
      | none => r
    | none => r))

/-- Apply f to the dataframe and layer pairs, like the source's dlapply
helper inside plot_build. -/
def dlapply (f : Dataset → Layer → Dataset) :
    List Dataset → List Layer → List Dataset
  | [], _ => []
  | _, [] => []
  | d :: ds, l :: ls => f d l :: dlapply f ds ls

/-- Fallible dlapply: stops at the first raised error, like the python
loop would. -/
def dlapplyE (f : Dataset → Layer → Except GgError Dataset) :
    List Dataset → List Layer → Except GgError (List Dataset)
  | [], _ => Except.ok []
  | _, [] => Except.ok []
  | d :: ds, l :: ls =>
    match f d l with
    | Except.error e => Except.error e
    | Except.ok d2 =>
      match dlapplyE f ds ls with
      | Except.error e => Except.error e
      | Except.ok rest => Except.ok (d2 :: rest)

/-- Modelled from the spec: Panel.calculate_stats invokes each layer's
statistic on every panel-restricted subset and reassembles one dataset
per layer. -/
def Panel.calculate_stats (pn : Panel) (data : List Dataset)
    (layers : List Layer) : List Dataset :=
  dlapply (fun d l =>
    ((pn.layout.map (fun pnl =>
      l.statCompute (d.filter (fun r =>
        rowLookup r "PANEL" == some (Int.ofNat pnl.PANEL)))))).flatten) data layers

/-- Modelled from the spec: Panel.reset_scales clears the accumulated
ranges of the panel position scales so the second training pass starts
clean. -/
def Panel.reset_scales (pn : Panel) : Panel :=
  { pn with
    x_scales := pn.x_scales.map (fun s => { s with range := [] }),
    y_scales := pn.y_scales.map (fun s => { s with range := [] }) }

def mkRangeRec (xs ys : ScaleSt) : RangeRec :=
  ⟨(xs.range.foldl min (xs.range.headD 0), xs.range.foldl max (xs.range.headD 0)),
   (ys.range.foldl min (ys.range.headD 0), ys.range.foldl max (ys.range.headD 0)),
   xs.breaks, ys.breaks, xs.labels, ys.labels⟩

/-- Modelled from the spec: Panel.train_ranges finalizes per-panel
display ranges, breaks and labels from each panel's resolved scales. -/
def Panel.train_ranges (pn : Panel) : Panel :=
  { pn with ranges := pn.layout.map (fun pnl =>
      mkRangeRec (pn.x_scales.getD (pnl.SCALE_X - 1) defaultScale)
                 (pn.y_scales.getD (pnl.SCALE_Y - 1) defaultScale)) }

/-- Modelled from the spec: layer.add_group tags every row with a
derived group id column (layer.py is not in src; the id itself does not
matter to any claim). -/
def add_group (d : Dataset) : Dataset :=
  d.map (fun r => ("group", (-1 : Int)) :: r)

/- ------------------------------------------------------------------
ggplot.__init__ (ggplot.py lines 59-72).
------------------------------------------------------------------ -/

/-- A python value passed to the ggplot constructor: either a pandas
DataFrame or an aes mapping. -/
inductive PyVal where
  | df (d : Dataset) : PyVal
  | aesv (a : Aes) : PyVal
deriving DecidableEq

def isDataFrame : PyVal → Bool
  | PyVal.df _ => true
  | PyVal.aesv _ => false

/-- Attributes assigned by ggplot.__init__ that the constructor claim
observes. -/
structure InitOut where
  dataVal : PyVal
  mappingVal : PyVal
  plotEnv : Env
  labels : List (String × String)
  layers : List Layer

/-- Body of __init__ after the argument swap: assigns data and mapping,
then derives labels and plot_env from the mapping (an AttributeError if
the mapping slot does not hold an aes object). -/
def initAssign (mapping0 data0 : PyVal) : Except GgError InitOut :=
  match mapping0 with
  | PyVal.aesv a =>
    Except.ok ⟨data0, mapping0, a.aes_env, make_labels a, []⟩
  | PyVal.df _ => Except.error (GgError.attributeError "aes_env")

/-- ggplot.__init__: if the data argument is not a DataFrame the two
arguments are swapped before assignment (ggplot.py lines 60-61). -/
def ggplot_init (mapping0 data0 : PyVal) : Except GgError InitOut :=
  if isDataFrame data0 then initAssign mapping0 data0
  else initAssign data0 mapping0

/- ------------------------------------------------------------------
ggplot.__deepcopy__ (ggplot.py lines 83-98): copy every attribute,
except data and plot_env which are shared by reference.
------------------------------------------------------------------ -/

/-- ggplot.__deepcopy__: the result shares `data` and `plot_env` with
the original (same reference, no copy) and gets fresh references with
copied contents for every other attribute; the scale objects behind
scaleRefs are duplicated in the heap. -/
def ggDeepcopy (h : Heap) (p : GGPlot) : Heap × GGPlot :=
  let b := h.next
  let k := p.scaleRefs.length
  let sts := readRefs h p.scaleRefs
  let newRefs := freshRefs b k
  let q : GGPlot := {
    dataRef := p.dataRef, data := p.data,
    plotEnvRef := p.plotEnvRef, plotEnv := p.plotEnv,
    mappingRef := b + k, mapping := p.mapping,
    facetRef := b + k + 1, facet := p.facet,
    labelsRef := b + k + 2, labels := p.labels,
    layersRef := b + k + 3, layers := p.layers,
    guidesRef := b + k + 4, guides := p.guides,
    scalesRef := b + k + 5, scaleRefs := newRefs,
    themeRef := b + k + 6, theme := p.theme }
  (⟨b + k + 7, newRefs.zip sts ++ h.store⟩, q)

/- ------------------------------------------------------------------
ggplot.plot_build (ggplot.py lines 176-275).
------------------------------------------------------------------ -/

/-- Result of the pure part of the pipeline: per-layer datasets, the
populated panel, the final contents of the plot's scale objects, the
scales added by the missing-scale backfill, and whether the non-position
branch ran. -/
structure CoreOut where
  data : List Dataset
  panel : Panel
  finalSts : List ScaleSt
  addedSts : List ScaleSt
  npUsed : Bool

/-- The value-level body of plot_build, stage for stage in source order
(ggplot.py lines 207-275): layout training and mapping, aesthetic
computation, grouping, scale transform, first position train/map,
statistics, statistic mapping, missing-scale backfill, reparameterise,
position adjustment, scale reset and second position train/map,
non-position train/map, range training. -/
def buildCore (pdata : Dataset) (mapping : Aes) (env : Env) (fac : Facet)
    (layers : List Layer) (sts : List ScaleSt) : Except GgError CoreOut :=
  let layer_data := layers.map (fun l => l.ldata)
  let all_data := some pdata :: layer_data
  let layout := fac.train_layout all_data
  let data0 := facetMapLayout fac layout layer_data pdata
  match dlapplyE (fun d l => l.compute_aesthetics d mapping env) data0 layers with
  | Except.error e => Except.error e
  | Except.ok data1 =>
    let data2 := data1.map add_group
    let data3 := data2.map (fun d => transform_df sts d)
    let sx1 := get_scales sts "x"
    let sy1 := get_scales sts "y"
    let panel1 := Panel.train_position ⟨layout, [], [], []⟩ data3 sx1 sy1
    let data4 := panel1.map_position data3
    let data5 := panel1.calculate_stats data4 layers
    let data6 := dlapply (fun d l => l.map_statistic d) data5 layers
    let stsPair := scales_add_missing sts ["x", "y"]
    let sts1 := stsPair.1
    let data7 := dlapply (fun d l => l.reparameterise d) data6 layers
    let data8 := dlapply (fun d l => l.adjust_position d) data7 layers
    let sx2 := get_scales sts1 "x"
    let sy2 := get_scales sts1 "y"
    let panel2 := panel1.reset_scales
    let panel3 := Panel.train_position panel2 data8 sx2 sy2
    let data9 := panel3.map_position data8
    let npUsed := !(non_position_scales sts1).isEmpty
    let sts2 := if npUsed then data9.foldl (fun acc d => trainNonPositionDf acc d) sts1
                else sts1
    let data10 := if npUsed then data9.map (fun d => map_df (non_position_scales sts2) d)
                  else data9
    let panel4 := panel3.train_ranges
    Except.ok ⟨data10, panel4, sts2, stsPair.2, npUsed⟩

/-- The (data, panel, plot) triple plot_build returns. -/
structure BuildOut where
  data : List Dataset
  panel : Panel
  plot : GGPlot

/-- Full result of one plot_build call: the pipeline events in execution
order, the heap references written (mutated objects), the heap after the
call and the returned triple or the raised error. -/
structure BuildRes where
  trace : List Event
  writes : List Nat
  heap : Heap
  out : Except GgError BuildOut

def BuildRes.outOk (b : BuildRes) : Bool :=
  match b.out with
  | Except.ok _ => true
  | Except.error _ => false

/-- Events of a successful build, in order; the non-position train/map
pair only occurs when non-position scales exist. -/
def buildTraceOk (np : Bool) : List Event :=
  [Event.checkLayers, Event.deepcopyEv, Event.trainLayout, Event.mapLayout,
   Event.computeAes, Event.addGroupEv, Event.transformScales,
   Event.trainPosition1, Event.mapPosition1, Event.calculateStats,
   Event.mapStatisticEv, Event.scalesAddMissingEv, Event.reparameteriseEv,
   Event.adjustPositionEv, Event.resetScalesEv, Event.trainPosition2,
   Event.mapPosition2] ++
  (if np then [Event.trainNonPosition, Event.mapNonPosition] else []) ++
  [Event.trainRangesEv]

/-- ggplot.plot_build: raises GgplotError("No layers in plot") when the
plot has no layers (before any copy is made); otherwise deep-copies the
plot and runs the pipeline on the copy, mirroring mutations of the
copy's scale objects into the heap. -/
def plot_build (h : Heap) (p : GGPlot) : BuildRes :=
  if p.layers.isEmpty then
    ⟨[Event.checkLayers], [], h, Except.error (GgError.ggplotError "No layers in plot")⟩
  else
    let hq := ggDeepcopy h p
    let h1 := hq.1
    let q := hq.2
    let sts := readRefs h1 q.scaleRefs
    match buildCore q.data q.mapping q.plotEnv q.facet q.layers sts with
    | Except.error e =>
      ⟨[Event.checkLayers, Event.deepcopyEv, Event.trainLayout,
        Event.mapLayout, Event.computeAes], [], h1, Except.error e⟩
    | Except.ok core =>
      let am := h1.allocMany core.addedSts
      let h2 := am.1
      let addedRefs := am.2
      let allRefs2 := q.scaleRefs ++ addedRefs
      let h3 := h2.writeMany (allRefs2.zip core.finalSts)
      let q2 := { q with scaleRefs := allRefs2 }
      ⟨buildTraceOk core.npUsed, q.scalesRef :: allRefs2, h3,
       Except.ok ⟨core.data, core.panel, q2⟩⟩

/- ------------------------------------------------------------------
ggplot.draw (ggplot.py lines 111-174) and helpers (lines 328-347).
------------------------------------------------------------------ -/

def rangeAt (pn : Panel) (idx : Nat) : RangeRec := pn.ranges.getD idx defaultRange

/-- set_breaks (ggplot.py lines 328-336): set explicit ticks on an axis
only when the panel's breaks entry is not the waive sentinel. -/
def set_breaks (pn : Panel) (idx : Nat) (ax : Axes) : Axes :=
  let xb := (rangeAt pn idx).x_breaks
  let yb := (rangeAt pn idx).y_breaks
  let ax1 := match xb with
    | WaiveOr.waive => ax
    | WaiveOr.given xs => { ax with xticks := some xs }
  match yb with
  | WaiveOr.waive => ax1
  | WaiveOr.given ys => { ax1 with yticks := some ys }

/-- set_labels (ggplot.py lines 339-347): set explicit tick labels only
when the panel's labels entry is not the waive sentinel. -/
def set_labels (pn : Panel) (idx : Nat) (ax : Axes) : Axes :=
  let xl := (rangeAt pn idx).x_labels
  let yl := (rangeAt pn idx).y_labels
  let ax1 := match xl with
    | WaiveOr.waive => ax
    | WaiveOr.given xs => { ax with xticklabels := some xs }
  match yl with
  | WaiveOr.waive => ax1
  | WaiveOr.given ys => { ax1 with yticklabels := some ys }

/-- One dispatch to a layer's draw routine in the panel loop: the panel
id, the 1-based z-order, the panel-matching rows handed over and the two
selected position scales. -/
structure PlotCall where
  panel : Nat
  zorder : Nat
  rows : Dataset
  sx : ScaleSt
  sy : ScaleSt
deriving DecidableEq

def mkCall (pnl : LayoutRow) (sx sy : ScaleSt) (d : Dataset) (z : Nat) : PlotCall :=
  ⟨pnl.PANEL, z,
   d.filter (fun r => rowLookup r "PANEL" == some (Int.ofNat pnl.PANEL)),
   sx, sy⟩

/-- Inner loop of ggplot.draw (lines 141-144): enumerate(zip(layers,
data), start=1); each layer draws the rows of its dataset whose PANEL
column matches the current panel, at its 1-based z-order. -/
def layerLoop (pnl : LayoutRow) (sx sy : ScaleSt) :
    List (Layer × Dataset) → Nat → Axes → Axes × List PlotCall
  | [], _, ax => (ax, [])
  | ld :: rest, z, ax =>
    let rows := ld.2.filter (fun r => rowLookup r "PANEL" == some (Int.ofNat pnl.PANEL))
    let ax1 := ld.1.plot rows sx sy ax z
    let res := layerLoop pnl sx sy rest (z + 1) ax1
    (res.1, ⟨pnl.PANEL, z, rows, sx, sy⟩ :: res.2)

/-- Outer loop of ggplot.draw (lines 135-166): zip(axs, layout); for
each panel select its x/y scales by the SCALE_X/SCALE_Y indices, draw
all layers, set limits, breaks and labels, and suppress the minor grid
on discrete axes. -/
def drawPanels (pn : Panel) :
    List (Axes × LayoutRow) → List Layer → List Dataset →
    Except GgError (List Axes × List PlotCall)
  | [], _, _ => Except.ok ([], [])
  | al :: rest, layers, data =>
    match pn.x_scales.get? (al.2.SCALE_X - 1), pn.y_scales.get? (al.2.SCALE_Y - 1) with
    | some sx, some sy =>
      let lres := layerLoop al.2 sx sy (layers.zip data) 1 al.1
      match pn.ranges.get? (al.2.PANEL - 1) with
      | some rng =>
        let ax2 := { lres.1 with xlim := some rng.x, ylim := some rng.y }
        let ax3 := set_breaks pn (al.2.PANEL - 1) ax2
        let ax4 := set_labels pn (al.2.PANEL - 1) ax3
        let ax5 := if sx.discrete then { ax4 with minorGridX := false } else ax4
        let ax6 := if sy.discrete then { ax5 with minorGridY := false } else ax5
        match drawPanels pn rest layers data with
        | Except.ok r2 => Except.ok (ax6 :: r2.1, lres.2 ++ r2.2)
        | Except.error e => Except.error e
      | none => Except.error GgError.indexError
    | _, _ => Except.error GgError.indexError

/-- The rendered plot handle: the built plot with its axes attached
(plot.axs, plot.fig in the source). -/
structure BuiltPlot where
  plot : GGPlot
  axs : List Axes

/-- Result of draw / render: events, writes and heap from the build,
the build triple, the drawn plot or error, and the layer dispatch log. -/
structure DrawRes where
  trace : List Event
  writes : List Nat
  heap : Heap
  build : Except GgError BuildOut
  out : Except GgError BuiltPlot
  calls : List PlotCall

/-- Drawing part of ggplot.draw after plot_build returns: the figure and
axes grid (nrow x ncol subplots) is allocated only when the build
succeeded, then the panel loop runs. -/
def drawAux (bout : Except GgError BuildOut) :
    List Event × Except GgError BuiltPlot × List PlotCall :=
  match bout with
  | Except.error e => ([], Except.error e, [])
  | Except.ok bo =>
    let m := bo.plot.facet.nrow * bo.plot.facet.ncol
    let axs := List.replicate m defaultAxes
    match drawPanels bo.panel (axs.zip bo.panel.layout) bo.plot.layers bo.data with
    | Except.error e => ([Event.allocSurface], Except.error e, [])
    | Except.ok r =>
      ([Event.allocSurface, Event.panelLoopEv, Event.facetSpacingEv,
        Event.modifyAxisEv], Except.ok ⟨bo.plot, r.1⟩, r.2)

/-- ggplot.draw: plot_build, then subplot allocation and the panel loop. -/
def draw (h : Heap) (p : GGPlot) : DrawRes :=
  let b := plot_build h p
  let a := drawAux b.out
  ⟨b.trace ++ a.1, b.writes, b.heap, b.out, a.2.1, a.2.2⟩

/- ------------------------------------------------------------------
ggplot.draw_legend (ggplot.py lines 277-303) and ggplot.render
(lines 100-109).
------------------------------------------------------------------ -/

abbrev LegendBox := Unit

/-- Modelled from the spec: guides.build assembles a composite legend
from the plot's non-position scales and returns none when there are no
such scales (guides/guides.py is not in src). -/
def guidesBuild (h : Heap) (p : GGPlot) : Option LegendBox :=
  if (non_position_scales (readRefs h p.scaleRefs)).isEmpty then none
  else some ()

/-- The legend position dict of draw_legend (ggplot.py lines 284-289):
anchor location code and figure coordinates for the four positions; a
python dict lookup on any other key raises KeyError. -/
def legendLookup (pos : String) : Option (Nat × (ℚ × ℚ)) :=
  if pos = "right" then some (6, (94 / 100, 1 / 2))
  else if pos = "left" then some (7, (7 / 100, 1 / 2))
  else if pos = "top" then some (8, (1 / 2, 95 / 100))
  else if pos = "bottom" then some (9, (1 / 2, 7 / 100))
  else none

/-- ggplot.draw_legend: build the legend box; if there is none return
the plot unchanged; otherwise look the theme's legend position up in the
dict (KeyError on an unknown position) and attach the anchored box as an
artist to the first axes. -/
def draw_legend (h : Heap) (bp : BuiltPlot) : Except GgError BuiltPlot :=
  match guidesBuild h bp.plot with
  | none => Except.ok bp
  | some _ =>
    match legendLookup bp.plot.theme.legend_position with
    | none => Except.error (GgError.keyError bp.plot.theme.legend_position)
    | some _ =>
      match bp.axs with
      | [] => Except.error GgError.indexError
      | ax0 :: rest =>
        Except.ok ⟨bp.plot, ({ ax0 with artists := ax0.artists + 1 }) :: rest⟩

/-- Legend part of render, after draw produced its output. -/
def renderAux (h : Heap) (o : Except GgError BuiltPlot) :
    List Event × Except GgError BuiltPlot :=
  match o with
  | Except.error e => ([], Except.error e)
  | Except.ok bp =>
    match draw_legend h bp with
    | Except.error e => ([Event.buildLegend], Except.error e)
    | Except.ok bp2 => ([Event.buildLegend], Except.ok bp2)

/-- ggplot.render: close previous figures, draw, then overlay the
legend. -/
def render (h : Heap) (p : GGPlot) : DrawRes :=
  let d := draw h p
  let a := renderAux d.heap d.out
  ⟨Event.closeAll :: (d.trace ++ a.1), d.writes, d.heap, d.build, a.2, d.calls⟩

/- ------------------------------------------------------------------
Observables and statement helpers.
------------------------------------------------------------------ -/

/-- The reference-free observables of one build: the layout table, the
trained per-panel ranges and the per-layer datasets (with their PANEL
assignments). -/
structure RenderObs where
  layoutTab : List LayoutRow
  ranges : List RangeRec
  dataOut : List Dataset
deriving DecidableEq

def buildObs : Except GgError BuildOut → Except GgError RenderObs
  | Except.error e => Except.error e
  | Except.ok b => Except.ok ⟨b.panel.layout, b.panel.ranges, b.data⟩

/-- The observables of a build as a pure function of the plot's value
attributes and the contents of its scale objects. -/
def coreObsFun (p : GGPlot) (sts : List ScaleSt) : Except GgError RenderObs :=
  if p.layers.isEmpty then Except.error (GgError.ggplotError "No layers in plot")
  else
    match buildCore p.data p.mapping p.plotEnv p.facet p.layers sts with
    | Except.error e => Except.error e
    | Except.ok core => Except.ok ⟨core.panel.layout, core.panel.ranges, core.data⟩

/-- First occurrence of a comes strictly before first occurrence of b. -/
def occursBefore (tr : List Event) (a b : Event) : Bool :=
  match tr.findIdx? (fun e => e == a), tr.findIdx? (fun e => e == b) with
  | some i, some j => decide (i < j)
  | _, _ => false

def axesArtists (axs : List Axes) : Nat := (axs.map (fun a => a.artists)).sum

def legendArtifacts (r : Except GgError BuiltPlot) : Nat :=
  match r with
  | Except.ok b => axesArtists b.axs
  | Except.error _ => 0

/-- Tests whether a result failed with the GgplotError class (the
specification-error class of the code base). -/
def isSpecErrB (r : Except GgError BuiltPlot) : Bool :=
  match r with
  | Except.error (GgError.ggplotError _) => true
  | _ => false

/- ------------------------------------------------------------------
Concrete instances used by the witness theorems.
------------------------------------------------------------------ -/

def aes0 : Aes := ⟨[("x", "cty"), ("y", "hwy")], []⟩

def d0 : Dataset := [[("x", 1), ("y", 4)], [("x", 2), ("y", 5)]]

/-- A concrete facet_null strategy: one panel, every row assigned to it. -/
def facetNull : Facet :=
  { kind := FacetKind.null, nrow := 1, ncol := 1,
    train_layout := fun _ => [⟨1, 1, 1, 1, 1, []⟩],
    assignPanels := fun _ ld pd =>
      (match ld with
       | some d => d
       | none => pd).map (fun r => ("PANEL", (1 : Int)) :: r) }

/-- A concrete layer with identity hooks. -/
def layer0 : Layer :=
  ⟨none, fun d _ _ => Except.ok d, fun d => d, fun d => d, fun d => d,
   fun d => d, fun _ _ _ ax _ => ax⟩

def scX : ScaleSt := ⟨["x"], false, [], Trans.identity, WaiveOr.waive, WaiveOr.waive⟩

def scY : ScaleSt := ⟨["y"], false, [], Trans.identity, WaiveOr.waive, WaiveOr.waive⟩

def scColor : ScaleSt := ⟨["color"], true, [], Trans.identity, WaiveOr.waive, WaiveOr.waive⟩

def theme0 : Theme := ⟨"right"⟩

def heap0 : Heap := ⟨11, [(9, scX), (10, scY)]⟩

def p1 : GGPlot :=
  { dataRef := 0, data := d0, plotEnvRef := 1, plotEnv := [],
    mappingRef := 2, mapping := aes0, facetRef := 3, facet := facetNull,
    labelsRef := 4, labels := make_labels aes0, layersRef := 5,
    layers := [layer0], guidesRef := 6, guides := Guides.mk,
    scalesRef := 7, scaleRefs := [9, 10], themeRef := 8, theme := theme0 }

def pEmpty : GGPlot := { p1 with layers := [] }

/-- Plot with one non-position (color) scale and an invalid legend
position string. -/
def pBad : GGPlot := { p1 with scaleRefs := [20], theme := ⟨"center"⟩ }

def heapL : Heap := ⟨21, [(20, scColor)]⟩

def bpBad : BuiltPlot := ⟨pBad, [defaultAxes]⟩

def bpPlain : BuiltPlot := ⟨p1, [defaultAxes]⟩

/-- The build triple of the concrete successful build. -/
def bo1 : BuildOut :=
  match (plot_build heap0 p1).out with
  | Except.ok b => b
  | Except.error _ => ⟨[], ⟨[], [], [], []⟩, p1⟩

/-- The drawn plot of the concrete successful draw. -/
def bp1 : BuiltPlot :=
  match (draw heap0 p1).out with
  | Except.ok b => b
  | Except.error _ => ⟨p1, []⟩

def pn9 : Panel :=
  ⟨[⟨1, 1, 1, 1, 1, []⟩], [], [],
   [⟨(0, 3), (0, 7), WaiveOr.given [1, 2], WaiveOr.waive,
     WaiveOr.waive, WaiveOr.given ["a", "b"]⟩]⟩

def ax9 : Axes := defaultAxes

/-- The pipeline-stage orderings claim C5 asserts about a build trace. -/
def stageOrderOk (tr : List Event) : Prop :=
  occursBefore tr Event.calculateStats Event.scalesAddMissingEv = true
  ∧ occursBefore tr Event.mapStatisticEv Event.scalesAddMissingEv = true
  ∧ occursBefore tr Event.scalesAddMissingEv Event.reparameteriseEv = true
  ∧ occursBefore tr Event.reparameteriseEv Event.adjustPositionEv = true
  ∧ occursBefore tr Event.adjustPositionEv Event.resetScalesEv = true
  ∧ occursBefore tr Event.resetScalesEv Event.trainPosition2 = true
  ∧ occursBefore tr Event.trainPosition2 Event.mapPosition2 = true
  ∧ occursBefore tr Event.mapPosition2 Event.trainRangesEv = true
  ∧ (tr.contains Event.trainNonPosition = true →
      occursBefore tr Event.mapPosition2 Event.trainNonPosition = true
      ∧ occursBefore tr Event.trainNonPosition Event.trainRangesEv = true
      ∧ occursBefore tr Event.mapNonPosition Event.trainRangesEv = true)

/-- The conjunction claim C3 asserts: the copy shares exactly data and
plot_env with the original (same reference and value); every other
attribute gets a reference that is not one of the original's, with an
equal copied value (the scale contents behind the fresh references equal
the originals); and no reference of the original plot is ever written by
plot_build. -/
def C3Concl (h : Heap) (p : GGPlot) : Prop :=
  ((ggDeepcopy h p).2.dataRef = p.dataRef ∧ (ggDeepcopy h p).2.data = p.data
    ∧ (ggDeepcopy h p).2.plotEnvRef = p.plotEnvRef ∧ (ggDeepcopy h p).2.plotEnv = p.plotEnv)
  ∧ (∀ r ∈ GGPlot.ownRefs (ggDeepcopy h p).2, r ∉ GGPlot.allRefs p)
  ∧ ((ggDeepcopy h p).2.mapping = p.mapping ∧ (ggDeepcopy h p).2.facet = p.facet
    ∧ (ggDeepcopy h p).2.labels = p.labels ∧ (ggDeepcopy h p).2.layers = p.layers
    ∧ (ggDeepcopy h p).2.guides = p.guides ∧ (ggDeepcopy h p).2.theme = p.theme
    ∧ readRefs (ggDeepcopy h p).1 (ggDeepcopy h p).2.scaleRefs = readRefs h p.scaleRefs)
  ∧ (∀ r ∈ (plot_build h p).writes, r ∉ GGPlot.allRefs p)


/-- The conjunction claim C2 asserts about a successful build result:
one transformed dataset per registered layer, and the returned plot is
the deep copy: it shares data and plot_env with the original, carries
equal values for every other attribute, and none of its own references
is a reference of the original. -/
def C2Concl (p : GGPlot) (bo : BuildOut) : Prop :=
  bo.data.length = p.layers.length
  ∧ bo.plot.dataRef = p.dataRef ∧ bo.plot.data = p.data
  ∧ bo.plot.plotEnvRef = p.plotEnvRef ∧ bo.plot.plotEnv = p.plotEnv
  ∧ bo.plot.mapping = p.mapping ∧ bo.plot.labels = p.labels
  ∧ bo.plot.layers = p.layers ∧ bo.plot.facet = p.facet
  ∧ bo.plot.guides = p.guides ∧ bo.plot.theme = p.theme
  ∧ (∀ r ∈ GGPlot.ownRefs bo.plot, r ∉ GGPlot.allRefs p)


/-- The dispatch list the inner layer loop produces, independent of the
axes being threaded through. -/
def callsFromD (pnl : LayoutRow) (sx sy : ScaleSt) :
    List (Layer × Dataset) → Nat → List PlotCall
  | [], _ => []
  | ld :: rest, z => mkCall pnl sx sy ld.2 z :: callsFromD pnl sx sy rest (z + 1)


/- ------------------------------------------------------------------
Helper lemmas.
------------------------------------------------------------------ -/

lemma set_breaks_xticks (pn : Panel) (idx : Nat) (ax : Axes) :
    (set_breaks pn idx ax).xticks =
      (match (rangeAt pn idx).x_breaks with
       | WaiveOr.waive => ax.xticks
       | WaiveOr.given xs => some xs) := by
  unfold set_breaks
  cases hx : (rangeAt pn idx).x_breaks <;>
    cases hy : (rangeAt pn idx).y_breaks <;> simp [hx, hy]

lemma set_breaks_yticks (pn : Panel) (idx : Nat) (ax : Axes) :
    (set_breaks pn idx ax).yticks =
      (match (rangeAt pn idx).y_breaks with
       | WaiveOr.waive => ax.yticks
       | WaiveOr.given ys => some ys) := by
  unfold set_breaks
  cases hx : (rangeAt pn idx).x_breaks <;>
    cases hy : (rangeAt pn idx).y_breaks <;> simp [hx, hy]

lemma set_labels_xticklabels (pn : Panel) (idx : Nat) (ax : Axes) :
    (set_labels pn idx ax).xticklabels =
      (match (rangeAt pn idx).x_labels with
       | WaiveOr.waive => ax.xticklabels
       | WaiveOr.given xs => some xs) := by
  unfold set_labels
  cases hx : (rangeAt pn idx).x_labels <;>
    cases hy : (rangeAt pn idx).y_labels <;> simp [hx, hy]

lemma set_labels_yticklabels (pn : Panel) (idx : Nat) (ax : Axes) :
    (set_labels pn idx ax).yticklabels =
      (match (rangeAt pn idx).y_labels with
       | WaiveOr.waive => ax.yticklabels
       | WaiveOr.given ys => some ys) := by
  unfold set_labels
  cases hx : (rangeAt pn idx).x_labels <;>
    cases hy : (rangeAt pn idx).y_labels <;> simp [hx, hy]

/- ------------------------------------------------------------------
Claim theorems.
------------------------------------------------------------------ -/

/-- Claim C9: for every panel, the drawing step sets explicit tick
breaks (set_xticks/set_yticks) and tick labels exactly when the
corresponding entry of the panel's ranges is not the waive sentinel; a
waived entry leaves the drawing surface's automatic choice untouched. -/
theorem claim_C9 : ∀ (pn : Panel) (idx : Nat) (ax : Axes),
    (is_waive (rangeAt pn idx).x_breaks = true →
      (set_breaks pn idx ax).xticks = ax.xticks)
    ∧ (∀ xs, (rangeAt pn idx).x_breaks = WaiveOr.given xs →
      (set_breaks pn idx ax).xticks = some xs)
    ∧ (is_waive (rangeAt pn idx).y_breaks = true →
      (set_breaks pn idx ax).yticks = ax.yticks)
    ∧ (∀ ys, (rangeAt pn idx).y_breaks = WaiveOr.given ys →
      (set_breaks pn idx ax).yticks = some ys)
    ∧ (is_waive (rangeAt pn idx).x_labels = true →
      (set_labels pn idx ax).xticklabels = ax.xticklabels)
    ∧ (∀ xs, (rangeAt pn idx).x_labels = WaiveOr.given xs →
      (set_labels pn idx ax).xticklabels = some xs)
    ∧ (is_waive (rangeAt pn idx).y_labels = true →
      (set_labels pn idx ax).yticklabels = ax.yticklabels)
    ∧ (∀ ys, (rangeAt pn idx).y_labels = WaiveOr.given ys →
      (set_labels pn idx ax).yticklabels = some ys) := by
  intro pn idx ax
  refine ⟨?_, ?_, ?_, ?_, ?_, ?_, ?_, ?_⟩
  · intro hw
    rw [set_breaks_xticks]
    cases hx : (rangeAt pn idx).x_breaks
    · rfl
    · rw [hx] at hw; simp [is_waive] at hw
  · intro xs hx
    rw [set_breaks_xticks, hx]
  · intro hw
    rw [set_breaks_yticks]
    cases hy : (rangeAt pn idx).y_breaks
    · rfl
    · rw [hy] at hw; simp [is_waive] at hw
  · intro ys hy
    rw [set_breaks_yticks, hy]
  · intro hw
    rw [set_labels_xticklabels]
    cases hx : (rangeAt pn idx).x_labels
    · rfl
    · rw [hx] at hw; simp [is_waive] at hw
  · intro xs hx
    rw [set_labels_xticklabels, hx]
  · intro hw
    rw [set_labels_yticklabels]
    cases hy : (rangeAt pn idx).y_labels
    · rfl
    · rw [hy] at hw; simp [is_waive] at hw
  · intro ys hy
    rw [set_labels_yticklabels, hy]

/-- Witness for C9 at a concrete panel whose x-breaks and y-labels are
explicit and whose y-breaks and x-labels are waived. -/
theorem claim_C9_witness :
    (set_breaks pn9 0 ax9).xticks = some [1, 2]
    ∧ (set_breaks pn9 0 ax9).yticks = ax9.yticks
    ∧ (set_labels pn9 0 ax9).xticklabels = ax9.xticklabels
    ∧ (set_labels pn9 0 ax9).yticklabels = some ["a", "b"] :=
  ⟨(claim_C9 pn9 0 ax9).2.1 [1, 2] rfl,
   (claim_C9 pn9 0 ax9).2.2.1 rfl,
   (claim_C9 pn9 0 ax9).2.2.2.2.1 rfl,
   (claim_C9 pn9 0 ax9).2.2.2.2.2.2.2 ["a", "b"] rfl⟩

/-- Claim C10: the constructor accepts (mapping, data) in either order:
whenever the data-position argument is not a DataFrame the two are
swapped before assignment, and with one DataFrame and one aes mapping
passed in either order, self.data ends up the DataFrame and self.mapping
the aes mapping. -/
theorem claim_C10 : ∀ (df : Dataset) (a : Aes),
    ggplot_init (PyVal.aesv a) (PyVal.df df) =
      Except.ok ⟨PyVal.df df, PyVal.aesv a, a.aes_env, make_labels a, []⟩
    ∧ ggplot_init (PyVal.df df) (PyVal.aesv a) =
      Except.ok ⟨PyVal.df df, PyVal.aesv a, a.aes_env, make_labels a, []⟩
    ∧ (∀ m d2 : PyVal, isDataFrame d2 = false →
        ggplot_init m d2 = initAssign d2 m) := by
  intro df a
  refine ⟨rfl, rfl, ?_⟩
  intro m d2 hd
  unfold ggplot_init
  rw [hd]
  simp

/-- Witness for C10: the swap branch taken at a concrete non-DataFrame
data argument. -/
theorem claim_C10_witness :
    ggplot_init (PyVal.df d0) (PyVal.aesv aes0) =
      initAssign (PyVal.aesv aes0) (PyVal.df d0) :=
  (claim_C10 d0 aes0).2.2 (PyVal.df d0) (PyVal.aesv aes0) rfl

/-- Claim C7 as stated is false: with a legend box present and the
invalid legend position "center", draw_legend fails with a python
KeyError from the position dict lookup, not with the GgplotError
(SpecificationError) class. -/
theorem claim_C7_counterexample :
    draw_legend heapL bpBad = Except.error (GgError.keyError "center")
    ∧ isSpecErrB (draw_legend heapL bpBad) = false :=
  ⟨rfl, rfl⟩

/-- Claim C7 (amended): if the theme's legend_position is any string
other than right/left/top/bottom and a legend box exists, draw_legend
fails with a KeyError carrying that position string, surfaced to the
caller. -/
theorem claim_C7 : ∀ (h : Heap) (bp : BuiltPlot),
    (guidesBuild h bp.plot).isSome = true →
    bp.plot.theme.legend_position ≠ "right" →
    bp.plot.theme.legend_position ≠ "left" →
    bp.plot.theme.legend_position ≠ "top" →
    bp.plot.theme.legend_position ≠ "bottom" →
    draw_legend h bp =
      Except.error (GgError.keyError bp.plot.theme.legend_position) := by
  intro h bp hg h1 h2 h3 h4
  unfold draw_legend
  cases hgb : guidesBuild h bp.plot with
  | none => rw [hgb] at hg; simp at hg
  | some box =>
    have hl : legendLookup bp.plot.theme.legend_position = none := by
      unfold legendLookup
      rw [if_neg h1, if_neg h2, if_neg h3, if_neg h4]
    rw [hl]

/-- Witness for the amended C7 at the concrete invalid position. -/
theorem claim_C7_witness :
    draw_legend heapL bpBad =
      Except.error (GgError.keyError bpBad.plot.theme.legend_position) :=
  claim_C7 heapL bpBad rfl (by decide) (by decide) (by decide) (by decide)

/-- Claim C8: when the guides build no legend (in particular when the
plot has zero non-position scales) draw_legend returns the plot
unchanged and attaches no legend artifact; a legend artifact is attached
only when the guides build returns a legend box. -/
theorem claim_C8 : ∀ (h : Heap) (bp : BuiltPlot),
    ((non_position_scales (readRefs h bp.plot.scaleRefs)).isEmpty = true →
      draw_legend h bp = Except.ok bp)
    ∧ (legendArtifacts (draw_legend h bp) ≠ axesArtists bp.axs →
      (guidesBuild h bp.plot).isSome = true) := by
  intro h bp
  constructor
  · intro he
    unfold draw_legend guidesBuild
    rw [he]
    simp
  · intro hne
    cases hg : guidesBuild h bp.plot with
    | some box => rfl
    | none =>
      exfalso
      apply hne
      show legendArtifacts (draw_legend h bp) = axesArtists bp.axs
      unfold draw_legend
      rw [hg]
      rfl

/-- Witness for C8 at a concrete plot whose scales are only x and y. -/
theorem claim_C8_witness : draw_legend heap0 bpPlain = Except.ok bpPlain :=
  (claim_C8 heap0 bpPlain).1 rfl

/-- Claim C1: building a plot with zero layers always fails with
GgplotError("No layers in plot") (the SpecificationError of the code),
and this failure happens before the deep copy is made and before any
drawing surface is allocated; with at least one layer the build gets
past the guard (the check passes and the deep copy is reached), so it
never fails for this reason. -/
theorem claim_C1 : ∀ (h : Heap) (p : GGPlot),
    (p.layers = [] →
      (plot_build h p).out = Except.error (GgError.ggplotError "No layers in plot")
      ∧ Event.deepcopyEv ∉ (render h p).trace
      ∧ Event.allocSurface ∉ (render h p).trace)
    ∧ (p.layers ≠ [] →
      (plot_build h p).trace.take 2 = [Event.checkLayers, Event.deepcopyEv]) := by
  intro h p
  constructor
  · intro hl
    have he : p.layers.isEmpty = true := by rw [hl]; rfl
    refine ⟨?_, ?_, ?_⟩
    · simp [plot_build, he]
    · simp [render, draw, renderAux, drawAux, plot_build, he]
    · simp [render, draw, renderAux, drawAux, plot_build, he]
  · intro hl
    have he : p.layers.isEmpty = false := by
      cases hll : p.layers with
      | nil => exact absurd hll hl
      | cons a l => rfl
    simp only [plot_build, he, Bool.false_eq_true, if_false]
    split
    · rfl
    · rename_i core heq
      cases core.npUsed <;> rfl

/-- Witness for C1: the concrete zero-layer plot fails with the error,
and the concrete one-layer plot passes the guard into the deep copy. -/
theorem claim_C1_witness :
    (plot_build heap0 pEmpty).out =
      Except.error (GgError.ggplotError "No layers in plot")
    ∧ (plot_build heap0 p1).trace.take 2 =
      [Event.checkLayers, Event.deepcopyEv] :=
  ⟨((claim_C1 heap0 pEmpty).1 rfl).1,
   (claim_C1 heap0 p1).2 (by simp [p1])⟩

/-- Claim C5: in every successful build the stages are ordered as the
source sequence prescribes: scales_add_missing after calculate_stats and
map_statistic and before reparameterise; adjust_position after
reparameterise; then reset_scales, the second position training and
mapping, and only then non-position scale training (when it happens) and
train_ranges. -/
theorem claim_C5 : ∀ (h : Heap) (p : GGPlot),
    (plot_build h p).outOk = true → stageOrderOk (plot_build h p).trace := by
  intro h p
  cases he : p.layers.isEmpty with
  | true =>
    intro hok
    simp [plot_build, he, BuildRes.outOk] at hok
  | false =>
    simp only [plot_build, he, Bool.false_eq_true, if_false]
    split
    · intro hok
      simp [BuildRes.outOk] at hok
    · rename_i core heq
      intro hok
      cases core.npUsed
      · show stageOrderOk (buildTraceOk false)
        unfold stageOrderOk
        decide
      · show stageOrderOk (buildTraceOk true)
        unfold stageOrderOk
        decide

/-- Witness for C5 at the concrete successful build. -/
theorem claim_C5_witness :
    (plot_build heap0 p1).outOk = true
    ∧ stageOrderOk (plot_build heap0 p1).trace :=
  ⟨by decide, claim_C5 heap0 p1 (by decide)⟩

/- ------------------------------------------------------------------
Heap lemmas for the deepcopy / non-mutation / idempotence claims.
------------------------------------------------------------------ -/

lemma freshRefs_le : ∀ (k b r : Nat), r ∈ freshRefs b k → b ≤ r := by
  intro k
  induction k with
  | zero => intro b r hr; simp [freshRefs] at hr
  | succ n ih =>
    intro b r hr
    simp only [freshRefs, List.mem_cons] at hr
    cases hr with
    | inl hh => omega
    | inr ht => have := ih (b + 1) r ht; omega

lemma freshRefs_length : ∀ (k b : Nat), (freshRefs b k).length = k := by
  intro k
  induction k with
  | zero => intro b; rfl
  | succ n ih => intro b; simp [freshRefs, ih]

lemma storeGet_prepend : ∀ (ps st : List (Nat × ScaleSt)) (r n : Nat),
    (∀ x ∈ ps, n ≤ x.1) → r < n → storeGet (ps ++ st) r = storeGet st r := by
  intro ps
  induction ps with
  | nil => intro st r n _ _; rfl
  | cons a t ih =>
    intro st r n hall hr
    obtain ⟨a1, a2⟩ := a
    have hne : r ≠ a1 := by
      have := hall (a1, a2) (List.mem_cons_self _ _)
      simp at this
      omega
    show (if r = a1 then some a2 else storeGet (t ++ st) r) = storeGet st r
    rw [if_neg hne]
    exact ih st r n (fun x hx => hall x (List.mem_cons_of_mem _ hx)) hr

lemma readRefs_congr : ∀ (rs : List Nat) (h1 h2 : Heap),
    (∀ r ∈ rs, Heap.get h1 r = Heap.get h2 r) → readRefs h1 rs = readRefs h2 rs := by
  intro rs
  induction rs with
  | nil => intro h1 h2 _; rfl
  | cons r t ih =>
    intro h1 h2 hall
    show (Heap.get h1 r).getD defaultScale :: readRefs h1 t =
      (Heap.get h2 r).getD defaultScale :: readRefs h2 t
    rw [hall r (List.mem_cons_self _ _),
      ih h1 h2 (fun x hx => hall x (List.mem_cons_of_mem _ hx))]

lemma readRefs_fresh : ∀ (sts : List ScaleSt) (b n : Nat) (st : List (Nat × ScaleSt)),
    readRefs ⟨n, (freshRefs b sts.length).zip sts ++ st⟩ (freshRefs b sts.length) = sts := by
  intro sts
  induction sts with
  | nil => intro b n st; rfl
  | cons s rest ih =>
    intro b n st
    show (Heap.get ⟨n, (b, s) :: ((freshRefs (b + 1) rest.length).zip rest ++ st)⟩ b).getD defaultScale ::
        readRefs ⟨n, (b, s) :: ((freshRefs (b + 1) rest.length).zip rest ++ st)⟩
          (freshRefs (b + 1) rest.length) = s :: rest
    have hhead : (Heap.get ⟨n, (b, s) :: ((freshRefs (b + 1) rest.length).zip rest ++ st)⟩ b) = some s := by
      show (if b = b then some s else _) = some s
      rw [if_pos rfl]
    have htail : readRefs ⟨n, (b, s) :: ((freshRefs (b + 1) rest.length).zip rest ++ st)⟩
        (freshRefs (b + 1) rest.length)
        = readRefs ⟨n, (freshRefs (b + 1) rest.length).zip rest ++ st⟩
          (freshRefs (b + 1) rest.length) := by
      apply readRefs_congr
      intro r hr
      have hb : b + 1 ≤ r := freshRefs_le _ _ _ hr
      show (if r = b then some s else storeGet ((freshRefs (b + 1) rest.length).zip rest ++ st) r) = _
      rw [if_neg (by omega)]
      rfl
    rw [hhead, htail, ih (b + 1) n st]
    rfl

/-- The scale contents read through the deep copy's fresh references are
exactly the contents behind the original's references. -/
lemma deepcopy_read (h : Heap) (p : GGPlot) :
    readRefs (ggDeepcopy h p).1 (ggDeepcopy h p).2.scaleRefs = readRefs h p.scaleRefs := by
  have hlen : (readRefs h p.scaleRefs).length = p.scaleRefs.length := by
    simp [readRefs]
  show readRefs ⟨h.next + p.scaleRefs.length + 7,
      (freshRefs h.next p.scaleRefs.length).zip (readRefs h p.scaleRefs) ++ h.store⟩
      (freshRefs h.next p.scaleRefs.length) = readRefs h p.scaleRefs
  rw [← hlen]
  exact readRefs_fresh (readRefs h p.scaleRefs) h.next _ h.store

lemma mem_zip_fst_ge {rs : List Nat} {sts : List ScaleSt} {n : Nat}
    (hge : ∀ r ∈ rs, n ≤ r) :
    ∀ x ∈ rs.zip sts, n ≤ x.1 := by
  intro x hx
  exact hge x.1 (List.of_mem_zip hx).1

/-- Every heap reference plot_build writes is fresh (allocated at or
after the heap's counter at entry): the original plot's objects are
never written. -/
lemma pb_writes_ge : ∀ (h : Heap) (p : GGPlot) (r : Nat),
    r ∈ (plot_build h p).writes → h.next ≤ r := by
  intro h p r
  simp only [plot_build]
  split
  · intro hr; simp at hr
  · split
    · intro hr; simp at hr
    · rename_i core heq
      intro hr
      simp only [List.mem_cons, List.mem_append] at hr
      rcases hr with hr | hr | hr
      · -- the copy's scales-list object reference
        have : r = h.next + p.scaleRefs.length + 5 := hr
        omega
      · -- one of the copy's scale object references
        have := freshRefs_le p.scaleRefs.length h.next r hr
        omega
      · -- a reference freshly allocated for a backfilled scale
        have := freshRefs_le core.addedSts.length (h.next + p.scaleRefs.length + 7) r hr
        omega

/-- plot_build leaves every previously allocated heap object unchanged:
reads at references below the entry counter see the same contents after
the build. -/
lemma pb_get_preserve : ∀ (h : Heap) (p : GGPlot) (r : Nat), r < h.next →
    Heap.get (plot_build h p).heap r = Heap.get h r := by
  intro h p r hr
  simp only [plot_build]
  split
  · rfl
  · split
    · -- aesthetic-computation error: the heap is the post-deepcopy heap
      show storeGet ((freshRefs h.next p.scaleRefs.length).zip (readRefs h p.scaleRefs)
        ++ h.store) r = storeGet h.store r
      exact storeGet_prepend _ _ r h.next
        (mem_zip_fst_ge (fun x hx => freshRefs_le _ _ _ hx)) hr
    · rename_i core heq
      show storeGet
        (((ggDeepcopy h p).2.scaleRefs ++ ((ggDeepcopy h p).1.allocMany core.addedSts).2).zip core.finalSts
          ++ ((freshRefs (h.next + p.scaleRefs.length + 7) core.addedSts.length).zip core.addedSts
            ++ ((freshRefs h.next p.scaleRefs.length).zip (readRefs h p.scaleRefs) ++ h.store))) r
        = storeGet h.store r
      rw [storeGet_prepend _ _ r h.next ?hw hr,
        storeGet_prepend _ _ r h.next ?ha hr,
        storeGet_prepend _ _ r h.next ?hz hr]
      case hw =>
        apply mem_zip_fst_ge
        intro x hx
        simp only [List.mem_append] at hx
        rcases hx with hx | hx
        · exact freshRefs_le _ _ _ hx
        · have := freshRefs_le core.addedSts.length (h.next + p.scaleRefs.length + 7) x hx
          omega
      case ha =>
        apply mem_zip_fst_ge
        intro x hx
        have := freshRefs_le core.addedSts.length (h.next + p.scaleRefs.length + 7) x hx
        omega
      case hz =>
        exact mem_zip_fst_ge (fun x hx => freshRefs_le _ _ _ hx)

/- ------------------------------------------------------------------
Claim C3: deep-copy sharing and build non-mutation.
------------------------------------------------------------------ -/

/-- Claim C3: ggplot.__deepcopy__ shares by reference exactly the raw
data and the aesthetic-evaluation environment and independently copies
every other attribute, and consequently plot_build never mutates any
attribute of the original plot object. -/
theorem claim_C3 : ∀ (h : Heap) (p : GGPlot), Wf h p → C3Concl h p := by
  intro h p hwf
  refine ⟨⟨rfl, rfl, rfl, rfl⟩, ?_, ⟨rfl, rfl, rfl, rfl, rfl, rfl, deepcopy_read h p⟩, ?_⟩
  · intro r hr hmem
    have hlt : r < h.next := hwf r hmem
    have hge : h.next ≤ r := by
      simp only [GGPlot.ownRefs, ggDeepcopy, List.mem_cons] at hr
      rcases hr with hr | hr | hr | hr | hr | hr | hr | hr
      · omega
      · omega
      · omega
      · omega
      · omega
      · omega
      · omega
      · have := freshRefs_le p.scaleRefs.length h.next r hr
        omega
    omega
  · intro r hr hmem
    have hlt : r < h.next := hwf r hmem
    have hge : h.next ≤ r := pb_writes_ge h p r hr
    omega

/-- Witness for C3 at the concrete heap/plot pair. -/
theorem claim_C3_witness : C3Concl heap0 p1 :=
  claim_C3 heap0 p1 (by unfold Wf; decide)

/- ------------------------------------------------------------------
Claim C2: one dataset per layer and a deep-copied plot.
------------------------------------------------------------------ -/

lemma dlapply_length (f : Dataset → Layer → Dataset) :
    ∀ (ds : List Dataset) (ls : List Layer),
    (dlapply f ds ls).length = min ds.length ls.length := by
  intro ds
  induction ds with
  | nil => intro ls; cases ls <;> simp [dlapply]
  | cons d ds ih =>
    intro ls
    cases ls with
    | nil => simp [dlapply]
    | cons l ls =>
      show (f d l :: dlapply f ds ls).length = _
      simp [ih]
      omega

lemma dlapplyE_length (f : Dataset → Layer → Except GgError Dataset) :
    ∀ (ds : List Dataset) (ls : List Layer) (out : List Dataset),
    dlapplyE f ds ls = Except.ok out → out.length = min ds.length ls.length := by
  intro ds
  induction ds with
  | nil =>
    intro ls out h
    cases ls with
    | nil => injection h with h2; simp [← h2]
    | cons l ls => injection h with h2; simp [← h2]
  | cons d ds ih =>
    intro ls out h
    cases ls with
    | nil => injection h with h2; simp [← h2]
    | cons l ls =>
      simp only [dlapplyE] at h
      split at h
      · exact Except.noConfusion h
      · split at h
        · exact Except.noConfusion h
        · rename_i d2 hfd rest hrest
          injection h with h2
          rw [← h2]
          have := ih ls rest hrest
          simp [this]
          omega

lemma buildCore_len : ∀ (pd : Dataset) (mp : Aes) (env : Env) (fac : Facet)
    (layers : List Layer) (sts : List ScaleSt) (core : CoreOut),
    buildCore pd mp env fac layers sts = Except.ok core →
    core.data.length = layers.length := by
  intro pd mp env fac layers sts core hc
  simp only [buildCore] at hc
  split at hc
  · exact Except.noConfusion hc
  · rename_i data1 heq1
    injection hc with hc2
    subst hc2
    have h1 : data1.length = layers.length := by
      have h0 := dlapplyE_length _ _ _ _ heq1
      simp [facetMapLayout] at h0
      exact h0
    dsimp only
    split
    · simp only [List.length_map, Panel.map_position, Panel.calculate_stats,
        dlapply_length, h1]
      omega
    · simp only [List.length_map, Panel.map_position, Panel.calculate_stats,
        dlapply_length, h1]
      omega

/-- Claim C2: for every plot with at least one layer, a successful
plot_build returns (data, panel, plot) where data has exactly one
transformed dataset per registered layer and plot is the deep copy of
the original plot object. -/
theorem claim_C2 : ∀ (h : Heap) (p : GGPlot) (bo : BuildOut),
    Wf h p → (plot_build h p).out = Except.ok bo → C2Concl p bo := by
  intro h p bo hwf hout
  simp only [plot_build] at hout
  split at hout
  · simp at hout
  · split at hout
    · simp at hout
    · rename_i core heq
      have hbo : BuildOut.mk core.data core.panel
          { (ggDeepcopy h p).2 with
            scaleRefs := (ggDeepcopy h p).2.scaleRefs ++
              ((ggDeepcopy h p).1.allocMany core.addedSts).2 } = bo := by
        injection hout
      subst hbo
      refine ⟨?_, rfl, rfl, rfl, rfl, rfl, rfl, rfl, rfl, rfl, rfl, ?_⟩
      · exact buildCore_len _ _ _ _ _ _ _ heq
      · intro r hr hmem
        have hlt : r < h.next := hwf r hmem
        have hge : h.next ≤ r := by
          simp only [GGPlot.ownRefs, ggDeepcopy, Heap.allocMany, List.mem_cons,
            List.mem_append] at hr
          rcases hr with hr | hr | hr | hr | hr | hr | hr | hr | hr
          · omega
          · omega
          · omega
          · omega
          · omega
          · omega
          · omega
          · have := freshRefs_le p.scaleRefs.length h.next r hr
            omega
          · have := freshRefs_le core.addedSts.length (h.next + p.scaleRefs.length + 7) r hr
            omega
        omega

/-- Witness for C2 at the concrete successful build. -/
theorem claim_C2_witness : C2Concl p1 bo1 :=
  claim_C2 heap0 p1 bo1 (by unfold Wf; decide) rfl

/- ------------------------------------------------------------------
Claim C4: rendering twice yields the same build output.
------------------------------------------------------------------ -/

/-- The observable build output is a pure function of the plot's value
attributes and the contents currently behind its scale references: the
deep copy isolates the build from the heap except for that initial
read. -/
lemma pb_obs (h : Heap) (p : GGPlot) :
    buildObs (plot_build h p).out = coreObsFun p (readRefs h p.scaleRefs) := by
  cases he : p.layers.isEmpty with
  | true => simp [plot_build, coreObsFun, he, buildObs]
  | false =>
    simp only [plot_build, coreObsFun, he, Bool.false_eq_true, if_false]
    rw [deepcopy_read h p]
    rw [show (ggDeepcopy h p).2.data = p.data from rfl,
      show (ggDeepcopy h p).2.mapping = p.mapping from rfl,
      show (ggDeepcopy h p).2.plotEnv = p.plotEnv from rfl,
      show (ggDeepcopy h p).2.facet = p.facet from rfl,
      show (ggDeepcopy h p).2.layers = p.layers from rfl]
    cases hbc : buildCore p.data p.mapping p.plotEnv p.facet p.layers
        (readRefs h p.scaleRefs) with
    | error e => simp [hbc, buildObs]
    | ok core => simp [hbc, buildObs]

/-- Claim C4: rendering the same unmutated plot twice produces
identical build output (layout table, trained ranges and the per-layer
datasets with their panel assignments); the deep-copy isolation keeps
the first render from leaking state into the second. -/
theorem claim_C4 : ∀ (h : Heap) (p : GGPlot), Wf h p →
    buildObs ((render (render h p).heap p).build) = buildObs ((render h p).build) := by
  intro h p hwf
  have hb : ∀ h2 : Heap, (render h2 p).build = (plot_build h2 p).out := fun h2 => rfl
  have hh : (render h p).heap = (plot_build h p).heap := rfl
  rw [hb, hb, hh, pb_obs, pb_obs]
  have hread : readRefs (plot_build h p).heap p.scaleRefs = readRefs h p.scaleRefs := by
    apply readRefs_congr
    intro r hr
    apply pb_get_preserve
    apply hwf
    simp only [GGPlot.allRefs, GGPlot.ownRefs, List.mem_cons]
    tauto
  rw [hread]

/-- Witness for C4 at the concrete heap/plot pair. -/
theorem claim_C4_witness :
    buildObs ((render (render heap0 p1).heap p1).build) =
      buildObs ((render heap0 p1).build) :=
  claim_C4 heap0 p1 (by unfold Wf; decide)

/- ------------------------------------------------------------------
Claim C6: the draw loop dispatches exactly the panel-matching rows to
each layer, in layout order and registration z-order, with the scales
selected by the layout's scale indices.
------------------------------------------------------------------ -/

lemma getD_of_getQ {α : Type} : ∀ (l : List α) (i : Nat) (a d : α),
    l.get? i = some a → l.getD i d = a := by
  intro l
  induction l with
  | nil => intro i a d h; cases i <;> exact Option.noConfusion h
  | cons x xs ih =>
    intro i a d h
    cases i with
    | zero =>
      have : x = a := Option.some.inj h
      rw [List.getD_cons_zero, this]
    | succ n =>
      rw [List.getD_cons_succ]
      exact ih n a d h

lemma zip_getD_snd : ∀ (ls : List Layer) (ds : List Dataset) (i : Nat),
    i < min ls.length ds.length →
    ((ls.zip ds).getD i (defaultLayer, [])).2 = ds.getD i [] := by
  intro ls
  induction ls with
  | nil => intro ds i h; simp at h
  | cons l ls ih =>
    intro ds i h
    cases ds with
    | nil => simp at h
    | cons d ds =>
      cases i with
      | zero => rfl
      | succ n =>
        have hn : n < min ls.length ds.length := by
          simp at h ⊢
          omega
        show ((ls.zip ds).getD n (defaultLayer, [])).2 = ds.getD n []
        exact ih ds n hn

lemma layerLoop_calls : ∀ (pnl : LayoutRow) (sx sy : ScaleSt)
    (pairs : List (Layer × Dataset)) (z : Nat) (ax : Axes),
    (layerLoop pnl sx sy pairs z ax).2 = callsFromD pnl sx sy pairs z := by
  intro pnl sx sy pairs
  induction pairs with
  | nil => intro z ax; rfl
  | cons ld rest ih =>
    intro z ax
    show (_ : PlotCall) :: (layerLoop pnl sx sy rest (z + 1) _).2 =
      mkCall pnl sx sy ld.2 z :: callsFromD pnl sx sy rest (z + 1)
    rw [ih]
    rfl

lemma callsFromD_eq_range : ∀ (pnl : LayoutRow) (sx sy : ScaleSt)
    (pairs : List (Layer × Dataset)) (z : Nat),
    callsFromD pnl sx sy pairs z =
      (List.range pairs.length).map (fun i =>
        mkCall pnl sx sy (pairs.getD i (defaultLayer, [])).2 (z + i)) := by
  intro pnl sx sy pairs
  induction pairs with
  | nil => intro z; rfl
  | cons ld rest ih =>
    intro z
    show mkCall pnl sx sy ld.2 z :: callsFromD pnl sx sy rest (z + 1) = _
    rw [ih]
    show _ = (List.range (rest.length + 1)).map _
    rw [List.range_succ_eq_map, List.map_cons, List.map_map]
    have hhead : mkCall pnl sx sy ((ld :: rest).getD 0 (defaultLayer, [])).2 (z + 0) =
        mkCall pnl sx sy ld.2 z := by
      rw [List.getD_cons_zero, Nat.add_zero]
    rw [hhead]
    have htail : (List.range rest.length).map
        ((fun i => mkCall pnl sx sy (((ld :: rest).getD i (defaultLayer, [])).2) (z + i)) ∘ Nat.succ)
        = (List.range rest.length).map
          (fun i => mkCall pnl sx sy ((rest.getD i (defaultLayer, [])).2) (z + 1 + i)) := by
      apply List.map_congr_left
      intro i _
      show mkCall pnl sx sy (((ld :: rest).getD (i + 1) (defaultLayer, [])).2) (z + (i + 1)) = _
      rw [List.getD_cons_succ]
      have : z + (i + 1) = z + 1 + i := by omega
      rw [this]
    rw [htail]

lemma drawPanels_calls : ∀ (pn : Panel) (pairsAL : List (Axes × LayoutRow))
    (layers : List Layer) (data : List Dataset) (res : List Axes × List PlotCall),
    drawPanels pn pairsAL layers data = Except.ok res →
    res.2 = pairsAL.flatMap (fun al =>
      (List.range (min layers.length data.length)).map (fun i =>
        mkCall al.2 (pn.x_scales.getD (al.2.SCALE_X - 1) defaultScale)
          (pn.y_scales.getD (al.2.SCALE_Y - 1) defaultScale)
          (data.getD i []) (1 + i))) := by
  intro pn pairsAL
  induction pairsAL with
  | nil =>
    intro layers data res h
    injection h with h2
    rw [← h2]
    rfl
  | cons al rest ih =>
    intro layers data res h
    simp only [drawPanels] at h
    split at h
    · rename_i sx sy hsx hsy
      split at h
      · rename_i rng hrng
        split at h
        · rename_i r2 hrec
          injection h with h2
          rw [← h2]
          show (layerLoop al.2 sx sy (layers.zip data) 1 al.1).2 ++ r2.2 = _
          rw [layerLoop_calls, callsFromD_eq_range, ih layers data r2 hrec,
            List.flatMap_cons]
          have hlen : (layers.zip data).length = min layers.length data.length :=
            List.length_zip layers data
          rw [hlen]
          have hsx2 : pn.x_scales.getD (al.2.SCALE_X - 1) defaultScale = sx :=
            getD_of_getQ _ _ _ _ hsx
          have hsy2 : pn.y_scales.getD (al.2.SCALE_Y - 1) defaultScale = sy :=
            getD_of_getQ _ _ _ _ hsy
          have hblock : (List.range (min layers.length data.length)).map (fun i =>
              mkCall al.2 sx sy ((layers.zip data).getD i (defaultLayer, [])).2 (1 + i))
              = (List.range (min layers.length data.length)).map (fun i =>
              mkCall al.2 (pn.x_scales.getD (al.2.SCALE_X - 1) defaultScale)
                (pn.y_scales.getD (al.2.SCALE_Y - 1) defaultScale)
                (data.getD i []) (1 + i)) := by
            apply List.map_congr_left
            intro i hi
            rw [List.mem_range] at hi
            rw [zip_getD_snd layers data i hi, hsx2, hsy2]
          rw [hblock]
        · exact Except.noConfusion h
      · exact Except.noConfusion h
    · exact Except.noConfusion h

lemma zip_replicate_flatMap : ∀ (m : Nat) (l : List LayoutRow) (a : Axes)
    (f : LayoutRow → List PlotCall),
    ((List.replicate m a).zip l).flatMap (fun al => f al.2) = (l.take m).flatMap f := by
  intro m
  induction m with
  | zero => intro l a f; simp
  | succ n ih =>
    intro l a f
    cases l with
    | nil => simp
    | cons x xs =>
      show ((a, x) :: (List.replicate n a).zip xs).flatMap (fun al => f al.2)
        = (x :: xs.take n).flatMap f
      rw [List.flatMap_cons, List.flatMap_cons, ih]

/-- Claim C6: on a successful draw, the dispatch log is exactly: for
each panel of the layout table in order (as many as there are axes,
nrow*ncol), for each layer in registration order with 1-based z-order,
one call carrying precisely the rows of that layer's dataset whose PANEL
column equals the panel's id, together with the x/y scales selected by
that panel's SCALE_X/SCALE_Y indices. -/
theorem claim_C6 : ∀ (h : Heap) (p : GGPlot) (bo : BuildOut) (bp : BuiltPlot),
    (draw h p).build = Except.ok bo → (draw h p).out = Except.ok bp →
    (draw h p).calls =
      (bo.panel.layout.take (bo.plot.facet.nrow * bo.plot.facet.ncol)).flatMap
        (fun pnl => (List.range (min bo.plot.layers.length bo.data.length)).map
          (fun i => mkCall pnl
            (bo.panel.x_scales.getD (pnl.SCALE_X - 1) defaultScale)
            (bo.panel.y_scales.getD (pnl.SCALE_Y - 1) defaultScale)
            (bo.data.getD i []) (1 + i))) := by
  intro h p bo bp hbuild hout
  have hb : (plot_build h p).out = Except.ok bo := hbuild
  have hcalls : (draw h p).calls = (drawAux (plot_build h p).out).2.2 := rfl
  have hout2 : (drawAux (plot_build h p).out).2.1 = Except.ok bp := hout
  rw [hb] at hcalls hout2
  rw [hcalls]
  simp only [drawAux] at hout2 ⊢
  cases hdp : drawPanels bo.panel
      ((List.replicate (bo.plot.facet.nrow * bo.plot.facet.ncol) defaultAxes).zip
        bo.panel.layout) bo.plot.layers bo.data with
  | error e =>
    rw [hdp] at hout2
    exact Except.noConfusion hout2
  | ok r =>
    show r.2 = _
    rw [drawPanels_calls bo.panel _ bo.plot.layers bo.data r hdp]
    exact zip_replicate_flatMap (bo.plot.facet.nrow * bo.plot.facet.ncol)
      bo.panel.layout defaultAxes
      (fun pnl => (List.range (min bo.plot.layers.length bo.data.length)).map
        (fun i => mkCall pnl
          (bo.panel.x_scales.getD (pnl.SCALE_X - 1) defaultScale)
          (bo.panel.y_scales.getD (pnl.SCALE_Y - 1) defaultScale)
          (bo.data.getD i []) (1 + i)))

/-- Witness for C6 at the concrete successful draw. -/
theorem claim_C6_witness :
    (draw heap0 p1).calls =
      (bo1.panel.layout.take (bo1.plot.facet.nrow * bo1.plot.facet.ncol)).flatMap
        (fun pnl => (List.range (min bo1.plot.layers.length bo1.data.length)).map
          (fun i => mkCall pnl
            (bo1.panel.x_scales.getD (pnl.SCALE_X - 1) defaultScale)
            (bo1.panel.y_scales.getD (pnl.SCALE_Y - 1) defaultScale)
            (bo1.data.getD i []) (1 + i))) :=
  claim_C6 heap0 p1 bo1 bp1 rfl rfl

end GG
